import Mathlib

/-!
Shallow embedding of the task-management backend
(Express routers in src/routes and src/unnamed, models in src/models,
middleware in src/middleware).

The Task Store, Notification Sink and Audit Sink are modelled as lists
inside a `DB` record; each route handler is a pure function from the
request data and the current `DB` to an HTTP outcome, the new `DB` and a
trace of store/side-effect events.  The external collaborators
(`jwt.verify`, the express-validator `isISO8601` check, mongoose id and
timestamp generation) are parameters or small executable models, as noted
on each definition.
-/

namespace TaskBackend

abbrev UserId := String
abbrev TaskId := String

/-- The decoded JWT payload attached as `req.user` by `authMiddleware`
(src/middleware/authMiddleware.js): it exposes `userId` and `role`. -/
structure AuthUser where
  userId : UserId
  role : String
deriving Repr, DecidableEq

/-- The Task document (src/models — TaskSchema): title and description are
required strings, status is an enum defaulting to Pending, dueDate is a
required date (kept here as its request string), assignedTo an optional
user reference, createdBy a required user reference; `timestamps: true`
adds createdAt and updatedAt, modelled as abstract clock readings. -/
structure Task where
  id : TaskId
  title : String
  description : String
  status : String
  dueDate : String
  assignedTo : Option UserId
  createdBy : UserId
  createdAt : Nat
  updatedAt : Nat
deriving Repr, DecidableEq

/-- The Notification document: recipient user and message. -/
structure Notification where
  user : UserId
  message : String
deriving Repr, DecidableEq

/-- The AuditLog document (src/models/AuditLog.js): actor, action
(CREATE | UPDATE | DELETE), task reference, free-text details and a
timestamp. -/
structure AuditLog where
  user : UserId
  action : String
  task : TaskId
  details : String
  timestamp : Nat
deriving Repr, DecidableEq

/-- The persistent state: the Task Store plus the Notification and
AuditLog collections. -/
structure DB where
  tasks : List Task
  notifications : List Notification
  auditLogs : List AuditLog
deriving Repr, DecidableEq

/-- Events emitted while a handler runs, in program order: a committed
Task Store write (save or deleteOne) or a side-effect attempt (the Bool
records whether the sink write succeeded; a failed attempt is caught and
logged by `createNotification` / `logAction`). -/
inductive Event where
  | storeCommit : TaskId → Event
  | notifyAttempt : UserId → Bool → Event
  | auditAttempt : String → Bool → Event
deriving Repr, DecidableEq

/-- A side-effect event (notification or audit attempt), as opposed to a
Task Store commit. -/
def Event.isSink : Event → Bool
  | .storeCommit _ => false
  | .notifyAttempt _ _ => true
  | .auditAttempt _ _ => true

/-- Every Task Store commit in the trace happens before every side-effect
attempt: once a sink event has fired, no further store commit appears. -/
def commitsPrecedeSinks (tr : List Event) : Bool :=
  (tr.dropWhile (fun e => !e.isSink)).all Event.isSink

/-- The valid status values checked by the status-update route
(`["Pending", "In Progress", "Completed"]`, src/unnamed/part_002). -/
def validStatuses : List String := ["Pending", "In Progress", "Completed"]

/-- Models the external express-validator `isISO8601` date check used on
`dueDate` (src/unnamed/part_002, create route), restricted to the
calendar-date form YYYY-MM-DD: four digit year, month 01-12, day 01-31. -/
def isISO8601 (s : String) : Bool :=
  match s.toList with
  | [y1, y2, y3, y4, '-', m1, m2, '-', d1, d2] =>
    y1.isDigit && y2.isDigit && y3.isDigit && y4.isDigit &&
    m1.isDigit && m2.isDigit && d1.isDigit && d2.isDigit &&
    (let mo := (m1.toNat - 48) * 10 + (m2.toNat - 48)
     let da := (d1.toNat - 48) * 10 + (d2.toNat - 48)
     decide (1 ≤ mo) && decide (mo ≤ 12) && decide (1 ≤ da) && decide (da ≤ 31))
  | _ => false

/-- Outcome of verifying a bearer token, abstracting `jwt.verify`: either
the decoded claims, or a failure (malformed, expired or bad signature —
`jwt.verify` throws in all three cases and the handler catches). -/
inductive JwtResult where
  | valid : AuthUser → JwtResult
  | invalid : JwtResult
deriving Repr, DecidableEq

/-- What `authMiddleware` leaves behind: either an error response
(status code and message) or the decoded `req.user`. -/
inductive AuthOutcome where
  | denied : Nat → String → AuthOutcome
  | user : AuthUser → AuthOutcome
deriving Repr, DecidableEq

/-- src/middleware/authMiddleware.js: with no Authorization header respond
401 Access Denied; otherwise strip the `Bearer ` prefix, verify, and on a
verification failure respond 400 Invalid Token; on success attach the
decoded claims as `req.user`. `verify` abstracts `jwt.verify` with the
server secret. -/
def authMiddleware (verify : String → JwtResult) (header : Option String) :
    AuthOutcome :=
  match header with
  | none => .denied 401 "Access Denied"
  | some token =>
    match verify (token.replace "Bearer " "") with
    | .valid decoded => .user decoded
    | .invalid => .denied 400 "Invalid Token"

/-- Request body of POST /api/tasks: the handler destructures
title, description, dueDate, assignedTo from `req.body`. -/
structure CreateBody where
  title : String
  description : String
  dueDate : String
  assignedTo : Option UserId
deriving Repr, DecidableEq

/-- Result of a mutation route: HTTP status, the task in the JSON payload
(if any), the new persistent state and the event trace. -/
structure MutationResult where
  status : Nat
  payload : Option Task
  db : DB
  trace : List Event
deriving Repr, DecidableEq

/-- Helper `createNotification` (src/unnamed/part_002): best-effort write
of a Notification; a sink failure (`notifOk = false`) is caught and
console-logged, leaving the collection unchanged. -/
def createNotification (notifOk : Bool) (userId : UserId) (message : String)
    (db : DB) : DB :=
  if notifOk then
    { db with notifications := db.notifications ++ [⟨userId, message⟩] }
  else db

/-- Helper `logAction` (src/unnamed/part_002): best-effort write of an
AuditLog record; a sink failure (`auditOk = false`) is caught and
console-logged, leaving the collection unchanged. -/
def logAction (auditOk : Bool) (userId : UserId) (action : String)
    (taskId : TaskId) (details : String) (clock : Nat) (db : DB) : DB :=
  if auditOk then
    { db with auditLogs := db.auditLogs ++ [⟨userId, action, taskId, details, clock⟩] }
  else db

/-- POST /api/tasks (src/unnamed/part_002, audit-enabled router): the
express-validator chain rejects an empty title, an empty description or a
non-ISO8601 dueDate with 400 before anything is persisted; otherwise a
Task is constructed with `createdBy = req.user.userId` (status takes the
schema default Pending, mongoose assigns `newId` and the timestamps) and
saved, then the assignee is notified when `assignedTo` is present, then
the CREATE audit record is written, and 201 returns the task. -/
def createTask (clock : Nat) (newId : TaskId) (db : DB) (caller : AuthUser)
    (body : CreateBody) (notifOk auditOk : Bool) : MutationResult :=
  if body.title = "" ∨ body.description = "" ∨ isISO8601 body.dueDate = false then
    ⟨400, none, db, []⟩
  else
    let t : Task :=
      ⟨newId, body.title, body.description, "Pending", body.dueDate,
        body.assignedTo, caller.userId, clock, clock⟩
    let db1 : DB := { db with tasks := db.tasks ++ [t] }
    let db2 : DB :=
      match body.assignedTo with
      | some x =>
        createNotification notifOk x
          ("You have been assigned a new task: " ++ body.title) db1
      | none => db1
    let db3 : DB :=
      logAction auditOk caller.userId "CREATE" newId
        ("Task " ++ body.title ++ " created") clock db2
    let notifyEvents : List Event :=
      match body.assignedTo with
      | some x => [.notifyAttempt x notifOk]
      | none => []
    ⟨201, some t, db3,
      [.storeCommit newId] ++ notifyEvents ++ [.auditAttempt "CREATE" auditOk]⟩

/-- GET /api/tasks (src/unnamed/part_002 and src/routes/taskRoutes.js,
identical logic): all tasks when the caller's role is admin, otherwise
only the tasks whose createdBy equals the caller's userId. Always 200. -/
def getTasks (db : DB) (caller : AuthUser) : List Task :=
  if caller.role = "admin" then db.tasks
  else db.tasks.filter (fun t => t.createdBy == caller.userId)

/-- mongoose `Task.findById`, over the Task Store list. -/
def findTask (db : DB) (id : TaskId) : Option Task :=
  db.tasks.find? (fun t => t.id == id)

/-- Saving a modified task document: the stored document with that id is
replaced by the new version. -/
def saveTask (db : DB) (t : Task) : DB :=
  { db with tasks := db.tasks.map (fun u => if u.id == t.id then t else u) }

/-- PUT /api/tasks/:id/status (src/unnamed/part_002): reject a status
outside the closed enum with 400; 404 when the id is absent; 403 when the
caller is neither the task's creator nor an admin; otherwise set the
status (updatedAt is refreshed by `timestamps: true`), save, write the
UPDATE audit record, and respond 200 with the task. -/
def updateTaskStatus (clock : Nat) (db : DB) (caller : AuthUser) (id : TaskId)
    (status : String) (auditOk : Bool) : MutationResult :=
  if ¬ status ∈ validStatuses then ⟨400, none, db, []⟩
  else
    match findTask db id with
    | none => ⟨404, none, db, []⟩
    | some task =>
      if task.createdBy ≠ caller.userId ∧ caller.role ≠ "admin" then
        ⟨403, none, db, []⟩
      else
        let t : Task := { task with status := status, updatedAt := clock }
        let db1 : DB := saveTask db t
        let db2 : DB :=
          logAction auditOk caller.userId "UPDATE" task.id
            ("Task status changed to " ++ status) clock db1
        ⟨200, some t, db2, [.storeCommit task.id, .auditAttempt "UPDATE" auditOk]⟩

/-- DELETE /api/tasks/:id (src/unnamed/part_002): 404 when the id is
absent; 403 when the caller is neither the task's creator nor an admin;
otherwise delete the document, write the DELETE audit record, and respond
200. -/
def deleteTask (clock : Nat) (db : DB) (caller : AuthUser) (id : TaskId)
    (auditOk : Bool) : MutationResult :=
  match findTask db id with
  | none => ⟨404, none, db, []⟩
  | some task =>
    if task.createdBy ≠ caller.userId ∧ caller.role ≠ "admin" then
      ⟨403, none, db, []⟩
    else
      let db1 : DB := { db with tasks := db.tasks.filter (fun u => !(u.id == id)) }
      let db2 : DB :=
        logAction auditOk caller.userId "DELETE" task.id
          ("Task " ++ task.title ++ " deleted") clock db1
      ⟨200, none, db2, [.storeCommit task.id, .auditAttempt "DELETE" auditOk]⟩

/-- Request body of the generic PUT /api/tasks/:id
(src/routes/taskRoutes.js): `req.body` is passed wholesale to
`Task.findByIdAndUpdate`, so any schema path present in the body is
written, createdBy included; absent paths are left untouched. -/
structure UpdateBody where
  title : Option String
  description : Option String
  status : Option String
  dueDate : Option String
  assignedTo : Option (Option UserId)
  createdBy : Option UserId
deriving Repr, DecidableEq

/-- `findByIdAndUpdate(id, req.body)` applied to one document: each path
present in the body overwrites the stored value; `timestamps: true`
refreshes updatedAt. -/
def applyUpdate (t : Task) (b : UpdateBody) (clock : Nat) : Task :=
  { t with
    title := b.title.getD t.title,
    description := b.description.getD t.description,
    status := b.status.getD t.status,
    dueDate := b.dueDate.getD t.dueDate,
    assignedTo := b.assignedTo.getD t.assignedTo,
    createdBy := b.createdBy.getD t.createdBy,
    updatedAt := clock }

/-- Generic PUT /api/tasks/:id (src/routes/taskRoutes.js): 404 when the id
is absent; 403 when the caller is neither the task's creator nor an
admin; otherwise `findByIdAndUpdate(req.params.id, req.body, {new: true})`
and 200 with the updated task. No audit record is written by this router. -/
def updateTask (clock : Nat) (db : DB) (caller : AuthUser) (id : TaskId)
    (body : UpdateBody) : MutationResult :=
  match findTask db id with
  | none => ⟨404, none, db, []⟩
  | some task =>
    if task.createdBy ≠ caller.userId ∧ caller.role ≠ "admin" then
      ⟨403, none, db, []⟩
    else
      let t : Task := applyUpdate task body clock
      ⟨200, some t, saveTask db t, [.storeCommit task.id]⟩

/-! Concrete sample data for witnesses and counterexamples. -/

/-- A sample task created by user u1. -/
def task1 : Task :=
  ⟨"t1", "Report", "Write the report", "Pending", "2024-05-10", none, "u1", 0, 0⟩

/-- A sample store holding only `task1`. -/
def db0 : DB := ⟨[task1], [], []⟩

/-- The creator of `task1`, a non-admin. -/
def owner1 : AuthUser := ⟨"u1", "user"⟩

/-- A non-admin user who did not create `task1`. -/
def intruder : AuthUser := ⟨"u2", "user"⟩

/-- An administrator. -/
def adminUser : AuthUser := ⟨"a1", "admin"⟩

/-- A verifier that rejects every token, modelling `jwt.verify` on
malformed, expired or wrongly signed input. -/
def badVerify : String → JwtResult := fun _ => .invalid

/-- A sample valid create payload assigning the task to user u3. -/
def body1 : CreateBody := ⟨"Report", "Write the report", "2024-05-10", some "u3"⟩

/-! Helper lemmas about the sinks. -/

theorem createNotification_tasks (ok : Bool) (x : UserId) (m : String) (db : DB) :
    (createNotification ok x m db).tasks = db.tasks := by
  unfold createNotification; split <;> rfl

theorem createNotification_auditLogs (ok : Bool) (x : UserId) (m : String) (db : DB) :
    (createNotification ok x m db).auditLogs = db.auditLogs := by
  unfold createNotification; split <;> rfl

theorem logAction_tasks (ok : Bool) (u : UserId) (a : String) (t : TaskId)
    (d : String) (c : Nat) (db : DB) : (logAction ok u a t d c db).tasks = db.tasks := by
  unfold logAction; split <;> rfl

theorem logAction_notifications (ok : Bool) (u : UserId) (a : String) (t : TaskId)
    (d : String) (c : Nat) (db : DB) :
    (logAction ok u a t d c db).notifications = db.notifications := by
  unfold logAction; split <;> rfl

theorem logAction_auditLogs_ok (u : UserId) (a : String) (t : TaskId)
    (d : String) (c : Nat) (db : DB) :
    (logAction true u a t d c db).auditLogs = db.auditLogs ++ [⟨u, a, t, d, c⟩] := rfl

theorem findTask_id {db : DB} {id : TaskId} {t : Task}
    (h : findTask db id = some t) : t.id = id := by
  unfold findTask at h
  have := List.find?_some h
  simpa using this

/-- Claim C6: a status-update request whose status value lies outside the
closed enum {Pending, In Progress, Completed} fails with 400 and leaves
the store, the task and the audit log untouched, for every caller and
every task id. -/
theorem C6_invalid_status_rejected (clock : Nat) (db : DB) (caller : AuthUser)
    (id : TaskId) (status : String) (auditOk : Bool)
    (h : ¬ status ∈ validStatuses) :
    updateTaskStatus clock db caller id status auditOk = ⟨400, none, db, []⟩ := by
  unfold updateTaskStatus
  rw [if_pos h]

/-- Witness for C6: the invalid value Done, sent by the owner on an
existing task, yields 400 and an unchanged database. -/
theorem C6_invalid_status_rejected_witness :
    ¬ ("Done" ∈ validStatuses) ∧
      updateTaskStatus 5 db0 owner1 "t1" "Done" true = ⟨400, none, db0, []⟩ :=
  ⟨by decide, C6_invalid_status_rejected 5 db0 owner1 "t1" "Done" true (by decide)⟩

/-- Claim C7: a create request with an empty title, an empty description
or a dueDate that fails the date check is rejected with 400 and nothing
is persisted. -/
theorem C7_create_validation (clock : Nat) (newId : TaskId) (db : DB)
    (caller : AuthUser) (body : CreateBody) (notifOk auditOk : Bool)
    (h : body.title = "" ∨ body.description = "" ∨ isISO8601 body.dueDate = false) :
    createTask clock newId db caller body notifOk auditOk = ⟨400, none, db, []⟩ := by
  unfold createTask
  rw [if_pos h]

/-- Witness for C7: an empty title yields 400 and an unchanged database. -/
theorem C7_create_validation_witness :
    createTask 1 "t9" db0 owner1 ⟨"", "x", "2024-05-10", none⟩ true true
      = ⟨400, none, db0, []⟩ :=
  C7_create_validation 1 "t9" db0 owner1 ⟨"", "x", "2024-05-10", none⟩ true true
    (Or.inl rfl)

/-- Claim C2: a task T created by U is returned when U lists, is returned
when an admin lists (the admin sees the whole store), and is not returned
when a different non-admin lists (a non-admin sees exactly the tasks with
createdBy equal to their own id). -/
theorem C2_list_visibility (db : DB) (t : Task) (u v a : AuthUser)
    (ht : t ∈ db.tasks) (hu : t.createdBy = u.userId) :
    t ∈ getTasks db u ∧
    (a.role = "admin" → getTasks db a = db.tasks ∧ t ∈ getTasks db a) ∧
    (v.role ≠ "admin" →
      getTasks db v = db.tasks.filter (fun x => x.createdBy == v.userId) ∧
      (v.userId ≠ u.userId → t ∉ getTasks db v)) := by
  refine ⟨?_, ?_, ?_⟩
  · unfold getTasks
    split
    · exact ht
    · simp only [List.mem_filter, beq_iff_eq]
      exact ⟨ht, hu⟩
  · intro ha
    unfold getTasks
    rw [if_pos ha]
    exact ⟨rfl, ht⟩
  · intro hv
    unfold getTasks
    rw [if_neg hv]
    refine ⟨rfl, ?_⟩
    intro hne hmem
    rw [List.mem_filter, beq_iff_eq] at hmem
    exact hne (by rw [← hmem.2]; exact hu)

/-- Witness for C2: task1, created by u1, is seen by its creator and by
the admin, and not by the other non-admin user u2. -/
theorem C2_list_visibility_witness :
    task1 ∈ getTasks db0 owner1 ∧
      (getTasks db0 adminUser = db0.tasks ∧ task1 ∈ getTasks db0 adminUser) ∧
      task1 ∉ getTasks db0 intruder := by
  have h := C2_list_visibility db0 task1 owner1 intruder adminUser
    (by decide) (by decide)
  exact ⟨h.1, h.2.1 rfl, ((h.2.2 (by decide)).2 (by decide))⟩

/-- Counterexample to C5 as stated: a present credential that fails
verification is answered with status 400 (Invalid Token), not with the
401 the claim requires for every failed-verification request. -/
theorem C5_counterexample :
    badVerify ("Bearer deadbeef".replace "Bearer " "") = .invalid ∧
      authMiddleware badVerify (some "Bearer deadbeef") = .denied 400 "Invalid Token" ∧
      (400 : Nat) ≠ 401 := by
  refine ⟨rfl, rfl, by decide⟩

/-- Claim C5 as amended: a missing credential yields 401 Access Denied,
while a credential that fails verification yields 400 Invalid Token; both
deny the request without attaching an identity. -/
theorem C5_amended_auth_responses (verify : String → JwtResult)
    (header : Option String) :
    (header = none → authMiddleware verify header = .denied 401 "Access Denied") ∧
    (∀ tok, header = some tok → verify (tok.replace "Bearer " "") = .invalid →
      authMiddleware verify header = .denied 400 "Invalid Token") := by
  constructor
  · intro h
    subst h
    rfl
  · intro tok h hv
    subst h
    simp [authMiddleware, hv]

/-- Witness for the amended C5: with no header the outcome is 401; with a
header that the verifier rejects the outcome is 400. -/
theorem C5_amended_auth_responses_witness :
    authMiddleware badVerify none = .denied 401 "Access Denied" ∧
      authMiddleware badVerify (some "Bearer deadbeef") = .denied 400 "Invalid Token" :=
  ⟨(C5_amended_auth_responses badVerify none).1 rfl,
    (C5_amended_auth_responses badVerify (some "Bearer deadbeef")).2
      "Bearer deadbeef" rfl rfl⟩

/-- Claim C9, evaluated at the failing input: the generic update route
(src/routes/taskRoutes.js) passes the request body wholesale to
findByIdAndUpdate, so the creator of task1 sending a body whose only
field is createdBy = u2 succeeds with 200 and the stored task's createdBy
changes from u1 to u2, contradicting the createdBy-immutability
invariant. -/
theorem C9_createdBy_overwritten :
    task1.createdBy = "u1" ∧
      (updateTask 1 db0 owner1 "t1" ⟨none, none, none, none, none, some "u2"⟩).status
        = 200 ∧
      ((findTask (updateTask 1 db0 owner1 "t1"
          ⟨none, none, none, none, none, some "u2"⟩).db "t1").map Task.createdBy)
        = some "u2" := by
  refine ⟨rfl, rfl, rfl⟩

theorem saveTask_auditLogs (db : DB) (t : Task) :
    (saveTask db t).auditLogs = db.auditLogs := rfl

theorem saveTask_notifications (db : DB) (t : Task) :
    (saveTask db t).notifications = db.notifications := rfl

/-- Counterexample to C1 as stated: the store holds task1, the caller is
neither an admin nor its creator, yet an update request carrying the
invalid status Done is answered 400 (the validation check runs before the
ownership check), not the 403 the claim requires for every such caller. -/
theorem C1_counterexample :
    findTask db0 "t1" = some task1 ∧
      intruder.role ≠ "admin" ∧
      task1.createdBy ≠ intruder.userId ∧
      (updateTaskStatus 1 db0 intruder "t1" "Done" true).status = 400 ∧
      (updateTaskStatus 1 db0 intruder "t1" "Done" true).status ≠ 403 :=
  ⟨rfl, by decide, by decide, rfl, by decide⟩

/-- Claim C1 as amended: a caller who is neither an admin nor the task's
creator never succeeds in updating or deleting a present task; a delete,
or a status update whose status passes validation, is answered 403, a
status update with an invalid status is answered 400, and in every case
the database is unchanged. -/
theorem C1_amended_owner_or_admin (clock : Nat) (db : DB) (caller : AuthUser)
    (id : TaskId) (task : Task) (status : String) (auditOk : Bool)
    (hf : findTask db id = some task)
    (hrole : caller.role ≠ "admin") (hown : task.createdBy ≠ caller.userId) :
    (status ∈ validStatuses →
      updateTaskStatus clock db caller id status auditOk = ⟨403, none, db, []⟩) ∧
    (¬ status ∈ validStatuses →
      updateTaskStatus clock db caller id status auditOk = ⟨400, none, db, []⟩) ∧
    deleteTask clock db caller id auditOk = ⟨403, none, db, []⟩ ∧
    (updateTaskStatus clock db caller id status auditOk).status ≠ 200 ∧
    (deleteTask clock db caller id auditOk).status ≠ 200 := by
  have hupd : ∀ _ : status ∈ validStatuses,
      updateTaskStatus clock db caller id status auditOk = ⟨403, none, db, []⟩ := by
    intro hs
    unfold updateTaskStatus
    rw [if_neg (not_not_intro hs)]
    simp only [hf]
    rw [if_pos ⟨hown, hrole⟩]
  have hbad : ∀ _ : ¬ status ∈ validStatuses,
      updateTaskStatus clock db caller id status auditOk = ⟨400, none, db, []⟩ := by
    intro hs
    unfold updateTaskStatus
    rw [if_pos hs]
  have hdel : deleteTask clock db caller id auditOk = ⟨403, none, db, []⟩ := by
    unfold deleteTask
    simp only [hf]
    rw [if_pos ⟨hown, hrole⟩]
  refine ⟨hupd, hbad, hdel, ?_, ?_⟩
  · by_cases hs : status ∈ validStatuses
    · rw [hupd hs]; simp
    · rw [hbad hs]; simp
  · rw [hdel]; simp

/-- Witness for the amended C1: non-creator u2 sending a valid status on
task1, and deleting task1, both get 403 with the database unchanged. -/
theorem C1_amended_owner_or_admin_witness :
    updateTaskStatus 2 db0 intruder "t1" "Pending" true = ⟨403, none, db0, []⟩ ∧
      deleteTask 2 db0 intruder "t1" true = ⟨403, none, db0, []⟩ := by
  have h := C1_amended_owner_or_admin 2 db0 intruder "t1" task1 "Pending" true
    rfl (by decide) (by decide)
  exact ⟨h.1 (by decide), h.2.2.1⟩

/-- Claim C3 (under a healthy Audit Sink, `auditOk = true`; a sink
failure is swallowed, see C4): a successful create, status update or
delete appends exactly one AuditLog record whose action names the
operation and whose task field is the affected task's id, while any
rejected mutation (validation, authorization or not-found) leaves the
audit log exactly as it was. -/
theorem C3_audit_exactly_one (clock : Nat) (newId : TaskId) (db : DB)
    (caller : AuthUser) (body : CreateBody) (notifOk : Bool) (id : TaskId)
    (status : String) (task : Task) :
    ((createTask clock newId db caller body notifOk true).status = 201 →
      (createTask clock newId db caller body notifOk true).db.auditLogs =
        db.auditLogs ++
          [⟨caller.userId, "CREATE", newId, "Task " ++ body.title ++ " created", clock⟩]) ∧
    ((createTask clock newId db caller body notifOk true).status ≠ 201 →
      (createTask clock newId db caller body notifOk true).db.auditLogs =
        db.auditLogs) ∧
    (findTask db id = some task →
      (updateTaskStatus clock db caller id status true).status = 200 →
      (updateTaskStatus clock db caller id status true).db.auditLogs =
        db.auditLogs ++
          [⟨caller.userId, "UPDATE", id, "Task status changed to " ++ status, clock⟩]) ∧
    ((updateTaskStatus clock db caller id status true).status ≠ 200 →
      (updateTaskStatus clock db caller id status true).db.auditLogs =
        db.auditLogs) ∧
    (findTask db id = some task →
      (deleteTask clock db caller id true).status = 200 →
      (deleteTask clock db caller id true).db.auditLogs =
        db.auditLogs ++
          [⟨caller.userId, "DELETE", id, "Task " ++ task.title ++ " deleted", clock⟩]) ∧
    ((deleteTask clock db caller id true).status ≠ 200 →
      (deleteTask clock db caller id true).db.auditLogs = db.auditLogs) := by
  refine ⟨?_, ?_, ?_, ?_, ?_, ?_⟩
  · intro h201
    unfold createTask at h201 ⊢
    by_cases hv : body.title = "" ∨ body.description = "" ∨ isISO8601 body.dueDate = false
    · rw [if_pos hv] at h201
      simp at h201
    · rw [if_neg hv]
      cases h : body.assignedTo <;>
        simp [h, logAction_auditLogs_ok, createNotification_auditLogs]
  · intro h201
    unfold createTask at h201 ⊢
    by_cases hv : body.title = "" ∨ body.description = "" ∨ isISO8601 body.dueDate = false
    · rw [if_pos hv]
    · rw [if_neg hv] at h201
      simp at h201
  · intro hf h200
    unfold updateTaskStatus at h200 ⊢
    by_cases hs : ¬ status ∈ validStatuses
    · rw [if_pos hs] at h200
      simp at h200
    · rw [if_neg hs] at h200 ⊢
      simp only [hf] at h200 ⊢
      by_cases hden : task.createdBy ≠ caller.userId ∧ caller.role ≠ "admin"
      · rw [if_pos hden] at h200
        simp at h200
      · rw [if_neg hden]
        simp [logAction_auditLogs_ok, saveTask_auditLogs, findTask_id hf]
  · intro h200
    unfold updateTaskStatus at h200 ⊢
    by_cases hs : ¬ status ∈ validStatuses
    · rw [if_pos hs]
    · rw [if_neg hs] at h200 ⊢
      cases hft : findTask db id with
      | none => simp [hft]
      | some t =>
        simp only [hft] at h200 ⊢
        by_cases hden : t.createdBy ≠ caller.userId ∧ caller.role ≠ "admin"
        · rw [if_pos hden]
        · rw [if_neg hden] at h200
          simp at h200
  · intro hf h200
    unfold deleteTask at h200 ⊢
    simp only [hf] at h200 ⊢
    by_cases hden : task.createdBy ≠ caller.userId ∧ caller.role ≠ "admin"
    · rw [if_pos hden] at h200
      simp at h200
    · rw [if_neg hden]
      simp [logAction_auditLogs_ok, findTask_id hf]
  · intro h200
    unfold deleteTask at h200 ⊢
    cases hft : findTask db id with
    | none => simp [hft]
    | some t =>
      simp only [hft] at h200 ⊢
      by_cases hden : t.createdBy ≠ caller.userId ∧ caller.role ≠ "admin"
      · rw [if_pos hden]
      · rw [if_neg hden] at h200
        simp at h200

/-- Witness for C3: with a succeeding Audit Sink, owner u1 creating a
task, updating task1's status and deleting task1 each append the one
matching audit record, and a 403-rejected delete by u2 appends none. -/
theorem C3_audit_exactly_one_witness :
    (createTask 3 "t2" db0 owner1 body1 true true).db.auditLogs =
      db0.auditLogs ++ [⟨"u1", "CREATE", "t2", "Task Report created", 3⟩] ∧
    (updateTaskStatus 4 db0 owner1 "t1" "Completed" true).db.auditLogs =
      db0.auditLogs ++ [⟨"u1", "UPDATE", "t1", "Task status changed to Completed", 4⟩] ∧
    (deleteTask 5 db0 owner1 "t1" true).db.auditLogs =
      db0.auditLogs ++ [⟨"u1", "DELETE", "t1", "Task Report deleted", 5⟩] ∧
    (deleteTask 5 db0 intruder "t1" true).db.auditLogs = db0.auditLogs := by
  refine ⟨?_, ?_, ?_, ?_⟩
  · exact (C3_audit_exactly_one 3 "t2" db0 owner1 body1 true "t1" "Pending" task1).1
      (by decide)
  · exact (C3_audit_exactly_one 4 "t2" db0 owner1 body1 true "t1" "Completed" task1).2.2.1
      rfl (by decide)
  · exact (C3_audit_exactly_one 5 "t2" db0 owner1 body1 true "t1" "Pending" task1).2.2.2.2.1
      rfl (by decide)
  · exact (C3_audit_exactly_one 5 "t2" db0 intruder body1 true "t1" "Pending" task1).2.2.2.2.2
      (by decide)

/-- Claim C4: in every mutation the Task Store commit precedes every
notification and audit attempt in the handler's event trace, and the sink
outcomes (`notifOk`, `auditOk`) never change the HTTP status, the
response payload or the committed Task Store contents — a sink failure is
caught inside `createNotification` / `logAction` and never unwinds the
mutation. -/
theorem C4_commit_before_side_effects (clock : Nat) (newId : TaskId) (db : DB)
    (caller : AuthUser) (body : CreateBody) (notifOk auditOk : Bool)
    (id : TaskId) (status : String) :
    commitsPrecedeSinks (createTask clock newId db caller body notifOk auditOk).trace = true ∧
    commitsPrecedeSinks (updateTaskStatus clock db caller id status auditOk).trace = true ∧
    commitsPrecedeSinks (deleteTask clock db caller id auditOk).trace = true ∧
    ((createTask clock newId db caller body notifOk auditOk).status =
        (createTask clock newId db caller body true true).status ∧
      (createTask clock newId db caller body notifOk auditOk).payload =
        (createTask clock newId db caller body true true).payload ∧
      (createTask clock newId db caller body notifOk auditOk).db.tasks =
        (createTask clock newId db caller body true true).db.tasks) ∧
    ((updateTaskStatus clock db caller id status auditOk).status =
        (updateTaskStatus clock db caller id status true).status ∧
      (updateTaskStatus clock db caller id status auditOk).payload =
        (updateTaskStatus clock db caller id status true).payload ∧
      (updateTaskStatus clock db caller id status auditOk).db.tasks =
        (updateTaskStatus clock db caller id status true).db.tasks) ∧
    ((deleteTask clock db caller id auditOk).status =
        (deleteTask clock db caller id true).status ∧
      (deleteTask clock db caller id auditOk).payload =
        (deleteTask clock db caller id true).payload ∧
      (deleteTask clock db caller id auditOk).db.tasks =
        (deleteTask clock db caller id true).db.tasks) := by
  refine ⟨?_, ?_, ?_, ?_, ?_, ?_⟩
  · unfold createTask
    by_cases hv : body.title = "" ∨ body.description = "" ∨ isISO8601 body.dueDate = false
    · rw [if_pos hv]
      rfl
    · rw [if_neg hv]
      cases h : body.assignedTo <;>
        simp [h, commitsPrecedeSinks, Event.isSink, List.dropWhile]
  · unfold updateTaskStatus
    by_cases hs : ¬ status ∈ validStatuses
    · rw [if_pos hs]
      rfl
    · rw [if_neg hs]
      cases hft : findTask db id with
      | none => simp [commitsPrecedeSinks]
      | some t =>
        dsimp only
        by_cases hden : t.createdBy ≠ caller.userId ∧ caller.role ≠ "admin"
        · rw [if_pos hden]
          rfl
        · rw [if_neg hden]
          simp [commitsPrecedeSinks, Event.isSink, List.dropWhile]
  · unfold deleteTask
    cases hft : findTask db id with
    | none => simp [commitsPrecedeSinks]
    | some t =>
      dsimp only
      by_cases hden : t.createdBy ≠ caller.userId ∧ caller.role ≠ "admin"
      · rw [if_pos hden]
        rfl
      · rw [if_neg hden]
        simp [commitsPrecedeSinks, Event.isSink, List.dropWhile]
  · unfold createTask
    by_cases hv : body.title = "" ∨ body.description = "" ∨ isISO8601 body.dueDate = false
    · simp [if_pos hv]
    · simp only [if_neg hv]
      cases h : body.assignedTo <;>
        simp [h, logAction_tasks, createNotification_tasks]
  · unfold updateTaskStatus
    by_cases hs : ¬ status ∈ validStatuses
    · simp [if_pos hs]
    · simp only [if_neg hs]
      cases hft : findTask db id with
      | none => simp
      | some t =>
        dsimp only
        by_cases hden : t.createdBy ≠ caller.userId ∧ caller.role ≠ "admin"
        · simp [if_pos hden]
        · simp only [if_neg hden]
          simp [logAction_tasks]
  · unfold deleteTask
    cases hft : findTask db id with
    | none => simp
    | some t =>
      dsimp only
      by_cases hden : t.createdBy ≠ caller.userId ∧ caller.role ≠ "admin"
      · simp [if_pos hden]
      · simp only [if_neg hden]
        simp [logAction_tasks]

/-- Claim C8 (under a healthy Notification Sink, `notifOk = true`): a
successful creation with assignedTo = X appends exactly one Notification
whose recipient is X, and a creation without assignedTo leaves the
Notification collection unchanged. -/
theorem C8_assignment_notification (clock : Nat) (newId : TaskId) (db : DB)
    (caller : AuthUser) (body : CreateBody) (auditOk : Bool) (x : UserId) :
    (body.assignedTo = some x →
      (createTask clock newId db caller body true auditOk).status = 201 →
      (createTask clock newId db caller body true auditOk).db.notifications =
        db.notifications ++
          [⟨x, "You have been assigned a new task: " ++ body.title⟩]) ∧
    (body.assignedTo = none →
      (createTask clock newId db caller body true auditOk).db.notifications =
        db.notifications) := by
  constructor
  · intro hx h201
    unfold createTask at h201 ⊢
    by_cases hv : body.title = "" ∨ body.description = "" ∨ isISO8601 body.dueDate = false
    · rw [if_pos hv] at h201
      simp at h201
    · rw [if_neg hv]
      simp [hx, createNotification, logAction_notifications]
  · intro hx
    unfold createTask
    by_cases hv : body.title = "" ∨ body.description = "" ∨ isISO8601 body.dueDate = false
    · rw [if_pos hv]
    · rw [if_neg hv]
      simp [hx, logAction_notifications]

/-- Witness for C8: creating with assignedTo = u3 appends the one
notification for u3; creating without assignedTo appends none. -/
theorem C8_assignment_notification_witness :
    (createTask 3 "t2" db0 owner1 body1 true true).db.notifications =
      db0.notifications ++ [⟨"u3", "You have been assigned a new task: Report"⟩] ∧
    (createTask 3 "t2" db0 owner1 ⟨"Report", "Write the report", "2024-05-10", none⟩
        true true).db.notifications = db0.notifications := by
  constructor
  · exact (C8_assignment_notification 3 "t2" db0 owner1 body1 true "u3").1 rfl
      (by decide)
  · exact (C8_assignment_notification 3 "t2" db0 owner1
      ⟨"Report", "Write the report", "2024-05-10", none⟩ true "u3").2 rfl

/-- Claim C10: a successful status update by an authorized caller on a
present task stores and returns the task with only its status and
updatedAt fields changed; id, title, description, dueDate, assignedTo,
createdBy and createdAt all keep their previous values. -/
theorem C10_status_update_frame (clock : Nat) (db : DB) (caller : AuthUser)
    (id : TaskId) (status : String) (task : Task) (auditOk : Bool)
    (hf : findTask db id = some task)
    (hs : status ∈ validStatuses)
    (hauth : task.createdBy = caller.userId ∨ caller.role = "admin") :
    (updateTaskStatus clock db caller id status auditOk).status = 200 ∧
    (updateTaskStatus clock db caller id status auditOk).payload =
      some { task with status := status, updatedAt := clock } ∧
    (updateTaskStatus clock db caller id status auditOk).db.tasks =
      db.tasks.map (fun u =>
        if u.id == id then { task with status := status, updatedAt := clock } else u) ∧
    ({ task with status := status, updatedAt := clock }).id = task.id ∧
    ({ task with status := status, updatedAt := clock }).title = task.title ∧
    ({ task with status := status, updatedAt := clock }).description = task.description ∧
    ({ task with status := status, updatedAt := clock }).dueDate = task.dueDate ∧
    ({ task with status := status, updatedAt := clock }).assignedTo = task.assignedTo ∧
    ({ task with status := status, updatedAt := clock }).createdBy = task.createdBy ∧
    ({ task with status := status, updatedAt := clock }).createdAt = task.createdAt ∧
    ({ task with status := status, updatedAt := clock }).status = status := by
  have hid : task.id = id := findTask_id hf
  have hden : ¬ (task.createdBy ≠ caller.userId ∧ caller.role ≠ "admin") := by
    rcases hauth with h | h
    · exact fun hc => hc.1 h
    · exact fun hc => hc.2 h
  unfold updateTaskStatus
  rw [if_neg (not_not_intro hs), hf]
  dsimp only
  rw [if_neg hden]
  refine ⟨rfl, rfl, ?_, rfl, rfl, rfl, rfl, rfl, rfl, rfl, rfl⟩
  simp [saveTask, logAction_tasks, hid]

/-- Witness for C10: the owner completing task1 gets 200 and the stored
task equals task1 with only status and updatedAt changed. -/
theorem C10_status_update_frame_witness :
    (updateTaskStatus 7 db0 owner1 "t1" "Completed" true).status = 200 ∧
      (updateTaskStatus 7 db0 owner1 "t1" "Completed" true).payload =
        some { task1 with status := "Completed", updatedAt := 7 } := by
  have h := C10_status_update_frame 7 db0 owner1 "t1" "Completed" task1 true
    rfl (by decide) (Or.inl rfl)
  exact ⟨h.1, h.2.1⟩

end TaskBackend
